import Mathlib

/-!
Verification of the validation-and-encoding core of an ERC-4337 bundler
(user-operation hashing, gas-field reconciliation, gas accounting, entity
extraction, and the RPC error taxonomy), shallowly embedded from the Rust
sources `crates/types/src/user_operation/v0_6.rs` and `src/rpc/eth/error.rs`.

Bytes are modelled as `Nat` values below 256 inside `List Nat`; 256-bit
machine integers (`U256`) as `Nat`; 64-bit lanes of the Keccak state as
`Nat` masked to 64 bits explicitly.
-/

namespace Rundler

/-! ## Keccak-256 (the fixed 256-bit hash used by `ethers::utils::keccak256`) -/

/-- 64-bit mask for Keccak lanes. -/
def MASK64 : Nat := 2 ^ 64 - 1

/-- Left-rotate a 64-bit lane by `k` (0 ≤ k < 64). -/
def rotl64 (n k : Nat) : Nat := ((n <<< k) ||| (n >>> (64 - k))) &&& MASK64

/-- Keccak round constants (FIPS 202). -/
def keccakRC : List Nat :=
  [0x0000000000000001, 0x0000000000008082, 0x800000000000808a, 0x8000000080008000,
   0x000000000000808b, 0x0000000080000001, 0x8000000080008081, 0x8000000000008009,
   0x000000000000008a, 0x0000000000000088, 0x0000000080008009, 0x000000008000000a,
   0x000000008000808b, 0x800000000000008b, 0x8000000000008089, 0x8000000000008003,
   0x8000000000008002, 0x8000000000000080, 0x000000000000800a, 0x800000008000000a,
   0x8000000080008081, 0x8000000000008080, 0x0000000080000001, 0x8000000080008008]

/-- The Keccak-f[1600] state: 25 lanes of 64 bits, lane `sI` at column `I % 5`
and row `I / 5`. -/
structure KState where
  s0 : Nat
  s1 : Nat
  s2 : Nat
  s3 : Nat
  s4 : Nat
  s5 : Nat
  s6 : Nat
  s7 : Nat
  s8 : Nat
  s9 : Nat
  s10 : Nat
  s11 : Nat
  s12 : Nat
  s13 : Nat
  s14 : Nat
  s15 : Nat
  s16 : Nat
  s17 : Nat
  s18 : Nat
  s19 : Nat
  s20 : Nat
  s21 : Nat
  s22 : Nat
  s23 : Nat
  s24 : Nat

/-- The all-zero initial sponge state. -/
def kInit : KState :=
  ⟨0, 0, 0, 0, 0, 0, 0, 0, 0, 0, 0, 0, 0, 0, 0, 0, 0, 0, 0, 0, 0, 0, 0, 0, 0⟩

/-- θ step of Keccak-f[1600]. -/
def theta (s : KState) : KState :=
  let c0 := s.s0 ^^^ s.s5 ^^^ s.s10 ^^^ s.s15 ^^^ s.s20
  let c1 := s.s1 ^^^ s.s6 ^^^ s.s11 ^^^ s.s16 ^^^ s.s21
  let c2 := s.s2 ^^^ s.s7 ^^^ s.s12 ^^^ s.s17 ^^^ s.s22
  let c3 := s.s3 ^^^ s.s8 ^^^ s.s13 ^^^ s.s18 ^^^ s.s23
  let c4 := s.s4 ^^^ s.s9 ^^^ s.s14 ^^^ s.s19 ^^^ s.s24
  let d0 := c4 ^^^ rotl64 c1 1
  let d1 := c0 ^^^ rotl64 c2 1
  let d2 := c1 ^^^ rotl64 c3 1
  let d3 := c2 ^^^ rotl64 c4 1
  let d4 := c3 ^^^ rotl64 c0 1
  ⟨s.s0 ^^^ d0, s.s1 ^^^ d1, s.s2 ^^^ d2, s.s3 ^^^ d3, s.s4 ^^^ d4,
   s.s5 ^^^ d0, s.s6 ^^^ d1, s.s7 ^^^ d2, s.s8 ^^^ d3, s.s9 ^^^ d4,
   s.s10 ^^^ d0, s.s11 ^^^ d1, s.s12 ^^^ d2, s.s13 ^^^ d3, s.s14 ^^^ d4,
   s.s15 ^^^ d0, s.s16 ^^^ d1, s.s17 ^^^ d2, s.s18 ^^^ d3, s.s19 ^^^ d4,
   s.s20 ^^^ d0, s.s21 ^^^ d1, s.s22 ^^^ d2, s.s23 ^^^ d3, s.s24 ^^^ d4⟩

/-- Combined ρ and π steps: destination lane `(y, 2x+3y)` takes the rotated
source lane `(x, y)`, with the standard rotation offsets of FIPS 202. -/
def rhoPi (s : KState) : KState :=
  ⟨rotl64 s.s0 0, rotl64 s.s6 44, rotl64 s.s12 43, rotl64 s.s18 21, rotl64 s.s24 14,
   rotl64 s.s3 28, rotl64 s.s9 20, rotl64 s.s10 3, rotl64 s.s16 45, rotl64 s.s22 61,
   rotl64 s.s1 1, rotl64 s.s7 6, rotl64 s.s13 25, rotl64 s.s19 8, rotl64 s.s20 18,
   rotl64 s.s4 27, rotl64 s.s5 36, rotl64 s.s11 10, rotl64 s.s17 15, rotl64 s.s23 56,
   rotl64 s.s2 62, rotl64 s.s8 55, rotl64 s.s14 39, rotl64 s.s15 41, rotl64 s.s21 2⟩

/-- χ step: per row, `out_x = b_x ⊕ (¬b_{x+1} ∧ b_{x+2})`. -/
def chi (b : KState) : KState :=
  ⟨b.s0 ^^^ ((b.s1 ^^^ MASK64) &&& b.s2), b.s1 ^^^ ((b.s2 ^^^ MASK64) &&& b.s3),
   b.s2 ^^^ ((b.s3 ^^^ MASK64) &&& b.s4), b.s3 ^^^ ((b.s4 ^^^ MASK64) &&& b.s0),
   b.s4 ^^^ ((b.s0 ^^^ MASK64) &&& b.s1),
   b.s5 ^^^ ((b.s6 ^^^ MASK64) &&& b.s7), b.s6 ^^^ ((b.s7 ^^^ MASK64) &&& b.s8),
   b.s7 ^^^ ((b.s8 ^^^ MASK64) &&& b.s9), b.s8 ^^^ ((b.s9 ^^^ MASK64) &&& b.s5),
   b.s9 ^^^ ((b.s5 ^^^ MASK64) &&& b.s6),
   b.s10 ^^^ ((b.s11 ^^^ MASK64) &&& b.s12), b.s11 ^^^ ((b.s12 ^^^ MASK64) &&& b.s13),
   b.s12 ^^^ ((b.s13 ^^^ MASK64) &&& b.s14), b.s13 ^^^ ((b.s14 ^^^ MASK64) &&& b.s10),
   b.s14 ^^^ ((b.s10 ^^^ MASK64) &&& b.s11),
   b.s15 ^^^ ((b.s16 ^^^ MASK64) &&& b.s17), b.s16 ^^^ ((b.s17 ^^^ MASK64) &&& b.s18),
   b.s17 ^^^ ((b.s18 ^^^ MASK64) &&& b.s19), b.s18 ^^^ ((b.s19 ^^^ MASK64) &&& b.s15),
   b.s19 ^^^ ((b.s15 ^^^ MASK64) &&& b.s16),
   b.s20 ^^^ ((b.s21 ^^^ MASK64) &&& b.s22), b.s21 ^^^ ((b.s22 ^^^ MASK64) &&& b.s23),
   b.s22 ^^^ ((b.s23 ^^^ MASK64) &&& b.s24), b.s23 ^^^ ((b.s24 ^^^ MASK64) &&& b.s20),
   b.s24 ^^^ ((b.s20 ^^^ MASK64) &&& b.s21)⟩

/-- One Keccak-f round: ι after χ after ρπ after θ. -/
def keccakRound (s : KState) (rc : Nat) : KState :=
  let b := chi (rhoPi (theta s))
  { b with s0 := b.s0 ^^^ rc }

/-- The full Keccak-f[1600] permutation (24 rounds). -/
def keccakF (s : KState) : KState := keccakRC.foldl keccakRound s

/-- Multi-rate padding pad10*1 with Keccak domain byte 0x01, rate 136 bytes. -/
def padKeccak (m : List Nat) : List Nat :=
  let q := m.length % 136
  if q = 135 then m ++ [0x81]
  else m ++ [0x01] ++ List.replicate (134 - q) 0 ++ [0x80]

/-- The little-endian 64-bit lane formed by the first 8 bytes of a list. -/
def leLane8 : List Nat → Nat
  | b0 :: b1 :: b2 :: b3 :: b4 :: b5 :: b6 :: b7 :: _ =>
    b0 ||| (b1 <<< 8) ||| (b2 <<< 16) ||| (b3 <<< 24) ||| (b4 <<< 32) ||| (b5 <<< 40) |||
      (b6 <<< 48) ||| (b7 <<< 56)
  | _ => 0

/-- XOR one 136-byte block into the first 17 lanes of the state and permute. -/
def absorbBlock (s : KState) (bs : List Nat) : KState :=
  let t1 := bs.drop 8
  let t2 := t1.drop 8
  let t3 := t2.drop 8
  let t4 := t3.drop 8
  let t5 := t4.drop 8
  let t6 := t5.drop 8
  let t7 := t6.drop 8
  let t8 := t7.drop 8
  let t9 := t8.drop 8
  let t10 := t9.drop 8
  let t11 := t10.drop 8
  let t12 := t11.drop 8
  let t13 := t12.drop 8
  let t14 := t13.drop 8
  let t15 := t14.drop 8
  let t16 := t15.drop 8
  keccakF
    ⟨s.s0 ^^^ leLane8 bs, s.s1 ^^^ leLane8 t1, s.s2 ^^^ leLane8 t2, s.s3 ^^^ leLane8 t3,
     s.s4 ^^^ leLane8 t4, s.s5 ^^^ leLane8 t5, s.s6 ^^^ leLane8 t6, s.s7 ^^^ leLane8 t7,
     s.s8 ^^^ leLane8 t8, s.s9 ^^^ leLane8 t9, s.s10 ^^^ leLane8 t10,
     s.s11 ^^^ leLane8 t11, s.s12 ^^^ leLane8 t12, s.s13 ^^^ leLane8 t13,
     s.s14 ^^^ leLane8 t14, s.s15 ^^^ leLane8 t15, s.s16 ^^^ leLane8 t16,
     s.s17, s.s18, s.s19, s.s20, s.s21, s.s22, s.s23, s.s24⟩

/-- Absorb `n` 136-byte blocks from the (padded) byte stream. -/
def absorbBlocks : Nat → KState → List Nat → KState
  | 0, s, _ => s
  | n + 1, s, m => absorbBlocks n (absorbBlock s (m.take 136)) (m.drop 136)

/-- The 8 bytes of a 64-bit lane, little-endian. -/
def laneBytesLE (x : Nat) : List Nat :=
  [x &&& 255, (x >>> 8) &&& 255, (x >>> 16) &&& 255, (x >>> 24) &&& 255,
   (x >>> 32) &&& 255, (x >>> 40) &&& 255, (x >>> 48) &&& 255, (x >>> 56) &&& 255]

/-- Squeeze the first 32 bytes of the state (lanes 0..3, little-endian). -/
def squeeze256 (s : KState) : List Nat :=
  laneBytesLE s.s0 ++ laneBytesLE s.s1 ++ laneBytesLE s.s2 ++ laneBytesLE s.s3

/-- Keccak-256 of a byte string. -/
def keccak256 (m : List Nat) : List Nat :=
  let p := padKeccak m
  squeeze256 (absorbBlocks (p.length / 136) kInit p)

/-! ## ABI encoding primitives (`ethers::abi::encode`) -/

/-- Big-endian byte serialization of `n` on `w` bytes (low `8*w` bits of `n`). -/
def beBytes (w n : Nat) : List Nat :=
  (List.range w).map fun i => (n >>> (8 * (w - 1 - i))) &&& 255

/-- ABI head word of a `Token::Uint` (32-byte big-endian). -/
def abiUint (n : Nat) : List Nat := beBytes 32 n

/-- ABI head word of a `Token::Address`: 12 zero bytes then the 20 address bytes. -/
def abiAddress (a : List Nat) : List Nat := List.replicate 12 0 ++ a

/-- Interpret a big-endian byte string as a natural number. -/
def bytesToNat (bs : List Nat) : Nat := bs.foldl (fun acc b => acc * 256 + b) 0

/-! ## UserOperation v0.6 (`crates/types/src/user_operation/v0_6.rs`) -/

/-- An address is 20 bytes. -/
abbrev Address := List Nat

/-- The fully-specified v0.6 user operation (`contracts::v0_6::shared_types::UserOperation`). -/
structure UserOperation where
  sender : Address
  nonce : Nat
  init_code : List Nat
  call_data : List Nat
  call_gas_limit : Nat
  verification_gas_limit : Nat
  pre_verification_gas : Nat
  max_fee_per_gas : Nat
  max_priority_fee_per_gas : Nat
  paymaster_and_data : List Nat
  signature : List Nat
  deriving DecidableEq

namespace UserOperation

/-- `UserOperation::get_address_from_field`: `None` when the field is shorter than
20 bytes, else the first 20 bytes as an address. -/
def get_address_from_field (data : List Nat) : Option Address :=
  if data.length < 20 then none else some (data.take 20)

/-- `UserOperation::factory`. -/
def factory (op : UserOperation) : Option Address :=
  get_address_from_field op.init_code

/-- `UserOperation::paymaster`. -/
def paymaster (op : UserOperation) : Option Address :=
  get_address_from_field op.paymaster_and_data

/-- `UserOperation::pack_for_hash`: hash the three variable-length fields, then
ABI-encode the ten-element tuple. -/
def pack_for_hash (op : UserOperation) : List Nat :=
  abiAddress op.sender ++
  abiUint op.nonce ++
  keccak256 op.init_code ++
  keccak256 op.call_data ++
  abiUint op.call_gas_limit ++
  abiUint op.verification_gas_limit ++
  abiUint op.pre_verification_gas ++
  abiUint op.max_fee_per_gas ++
  abiUint op.max_priority_fee_per_gas ++
  keccak256 op.paymaster_and_data

/-- `UserOperation::hash`: keccak256 of the ABI encoding of
`[keccak256(pack_for_hash), entry_point, chain_id]`. -/
def hash (op : UserOperation) (entry_point : Address) (chain_id : Nat) : List Nat :=
  keccak256 (keccak256 (pack_for_hash op) ++ abiAddress entry_point ++ abiUint chain_id)

/-- `UserOperation::max_gas_cost`. -/
def max_gas_cost (op : UserOperation) : Nat :=
  let mul := if (paymaster op).isSome then 3 else 1
  op.max_fee_per_gas *
    (op.pre_verification_gas + op.call_gas_limit + op.verification_gas_limit * mul)

/-- `UserOperation::total_verification_gas_limit`. -/
def total_verification_gas_limit (op : UserOperation) : Nat :=
  let mul := if (paymaster op).isSome then 2 else 1
  op.verification_gas_limit * mul

/-- `UserOperation::required_pre_execution_buffer`. -/
def required_pre_execution_buffer (op : UserOperation) : Nat :=
  op.verification_gas_limit + 5000

/-- `UserOperation::heap_size`. -/
def heap_size (op : UserOperation) : Nat :=
  op.init_code.length + op.call_data.length + op.paymaster_and_data.length +
    op.signature.length

/-- `UserOperation::clear_signature` (as a pure transform on the operation). -/
def clear_signature (op : UserOperation) : UserOperation :=
  { op with signature := [] }

end UserOperation

/-! ## Entities (`crate::entity`, consumed by `UserOperation::entities`) -/

/-- The entity roles (`EntityType`). -/
inductive EntityType where
  | account
  | paymaster
  | aggregator
  | factory
  deriving DecidableEq

/-- Modelled from the spec: the fixed iteration order of the role enumeration
(`EntityType::iter()` from `strum`, declared outside the provided sources).
The spec fixes the relative order Account, Paymaster, Factory for the produced
entities; the Aggregator role exists in the enumeration but never yields an
entity here, so its position does not affect any output. -/
def EntityType.iterList : List EntityType :=
  [.account, .paymaster, .aggregator, .factory]

/-- A (role, address) pair (`Entity::new`). -/
structure Entity where
  kind : EntityType
  address : Address
  deriving DecidableEq

namespace UserOperation

/-- `UserOperation::entity_address`. -/
def entity_address (op : UserOperation) : EntityType → Option Address
  | .account => some op.sender
  | .paymaster => paymaster op
  | .factory => factory op
  | .aggregator => none

/-- `UserOperation::entities`: filter-map the role enumeration through
`entity_address`. -/
def entities (op : UserOperation) : List Entity :=
  EntityType.iterList.filterMap fun k => (entity_address op k).map fun a => ⟨k, a⟩

end UserOperation

/-! ## Gas field reconciliation (`UserOperationOptionalGas`) -/

/-- The maximum representable 256-bit value (`U256::MAX`). -/
def U256MAX : Nat := 2 ^ 256 - 1

/-- User operation with optional gas fields for gas estimation. -/
structure UserOperationOptionalGas where
  sender : Address
  nonce : Nat
  init_code : List Nat
  call_data : List Nat
  call_gas_limit : Option Nat
  verification_gas_limit : Option Nat
  pre_verification_gas : Option Nat
  max_fee_per_gas : Option Nat
  max_priority_fee_per_gas : Option Nat
  paymaster_and_data : List Nat
  signature : List Nat
  deriving DecidableEq

namespace UserOperationOptionalGas

/-- `UserOperationOptionalGas::into_user_operation`: defaults the optional
fields and caps the two gas limits at the configured maxima. -/
def into_user_operation (self : UserOperationOptionalGas)
    (max_call_gas max_verification_gas : Nat) : UserOperation :=
  { sender := self.sender
    nonce := self.nonce
    init_code := self.init_code
    call_data := self.call_data
    paymaster_and_data := self.paymaster_and_data
    signature := self.signature
    verification_gas_limit :=
      min (self.verification_gas_limit.getD max_verification_gas) max_verification_gas
    call_gas_limit := min (self.call_gas_limit.getD max_call_gas) max_call_gas
    pre_verification_gas := self.pre_verification_gas.getD 0
    max_fee_per_gas := self.max_fee_per_gas.getD 0
    max_priority_fee_per_gas := self.max_priority_fee_per_gas.getD 0 }

/-- `UserOperationOptionalGas::max_fill`: maximum-cost fill on top of
`into_user_operation`. -/
def max_fill (self : UserOperationOptionalGas)
    (max_call_gas max_verification_gas : Nat) : UserOperation :=
  { self.into_user_operation max_call_gas max_verification_gas with
    call_gas_limit := U256MAX
    verification_gas_limit := U256MAX
    pre_verification_gas := U256MAX
    max_fee_per_gas := U256MAX
    max_priority_fee_per_gas := U256MAX
    signature := List.replicate self.signature.length 0xff
    paymaster_and_data := List.replicate self.paymaster_and_data.length 0xff }

end UserOperationOptionalGas

/-! ## RPC error taxonomy (`src/rpc/eth/error.rs`) -/

/-- `PaymasterValidationRejectedData`; `reason` is excluded from the serialized
payload (`#[serde(skip_serializing)]`) and surfaces only in the message. -/
structure PaymasterValidationRejectedData where
  paymaster : Address
  reason : String
  deriving DecidableEq

/-- `OutOfTimeRangeData`. -/
structure OutOfTimeRangeData where
  valid_until : Nat
  valid_after : Nat
  paymaster : Option Address
  deriving DecidableEq

/-- `ThrottledOrBannedData`. -/
structure ThrottledOrBannedData where
  paymaster : Option Address
  aggregator : Option Address
  factory : Option Address
  deriving DecidableEq

namespace ThrottledOrBannedData

/-- `ThrottledOrBannedData::paymaster` constructor. -/
def forPaymaster (paymaster : Address) : ThrottledOrBannedData :=
  { paymaster := some paymaster, aggregator := none, factory := none }

/-- `ThrottledOrBannedData::aggregator` constructor. -/
def forAggregator (aggregator : Address) : ThrottledOrBannedData :=
  { paymaster := none, aggregator := some aggregator, factory := none }

/-- `ThrottledOrBannedData::factory` constructor. -/
def forFactory (factory : Address) : ThrottledOrBannedData :=
  { paymaster := none, aggregator := none, factory := some factory }

end ThrottledOrBannedData

/-- `StakeTooLowData`. -/
structure StakeTooLowData where
  paymaster : Option Address
  aggregator : Option Address
  factory : Option Address
  minimum_stake : Nat
  minimum_unstake_delay : Nat
  deriving DecidableEq

namespace StakeTooLowData

/-- `StakeTooLowData::paymaster` constructor. -/
def forPaymaster (paymaster : Address) (minimum_stake minimum_unstake_delay : Nat) :
    StakeTooLowData :=
  { paymaster := some paymaster, aggregator := none, factory := none
    minimum_stake := minimum_stake, minimum_unstake_delay := minimum_unstake_delay }

/-- `StakeTooLowData::aggregator` constructor. -/
def forAggregator (aggregator : Address) (minimum_stake minimum_unstake_delay : Nat) :
    StakeTooLowData :=
  { paymaster := none, aggregator := some aggregator, factory := none
    minimum_stake := minimum_stake, minimum_unstake_delay := minimum_unstake_delay }

/-- `StakeTooLowData::factory` constructor. -/
def forFactory (factory : Address) (minimum_stake minimum_unstake_delay : Nat) :
    StakeTooLowData :=
  { paymaster := none, aggregator := none, factory := some factory
    minimum_stake := minimum_stake, minimum_unstake_delay := minimum_unstake_delay }

end StakeTooLowData

/-- `UnsupportedAggregatorData`. -/
structure UnsupportedAggregatorData where
  aggregator : Address
  deriving DecidableEq

/-- `EthRpcError`: the closed set of RPC rejection reasons. The third
constructor keeps the source enum's spelling (`PaymasterValidatoinRejected`). -/
inductive EthRpcError where
  | InvalidParams (msg : String)
  | EntrypointValidationRejected (msg : String)
  | PaymasterValidatoinRejected (data : PaymasterValidationRejectedData)
  | OpcodeViolation (msg : String)
  | OutOfTimeRange (data : OutOfTimeRangeData)
  | ThrottledOrBanned (data : ThrottledOrBannedData)
  | StakeTooLow (data : StakeTooLowData)
  | UnsupportedAggregator (data : UnsupportedAggregatorData)
  | SignatureCheckFailed
  | Internal (msg : String)
  deriving DecidableEq

/-- `INVALID_PARAMS_CODE` (borrowed from jsonrpsee). -/
def INVALID_PARAMS_CODE : Int := -32602
/-- `INTERNAL_ERROR_CODE` (borrowed from jsonrpsee). -/
def INTERNAL_ERROR_CODE : Int := -32603
/-- `ENTRYPOINT_VALIDATION_REJECTED_CODE`. -/
def ENTRYPOINT_VALIDATION_REJECTED_CODE : Int := -32500
/-- `PAYMASTER_VALIDATION_REJECTED_CODE`. -/
def PAYMASTER_VALIDATION_REJECTED_CODE : Int := -32501
/-- `OPCODE_VIOLATION_CODE`. -/
def OPCODE_VIOLATION_CODE : Int := -32502
/-- `OUT_OF_TIME_RANGE_CODE`. -/
def OUT_OF_TIME_RANGE_CODE : Int := -32503
/-- `THROTTLED_OR_BANNED_CODE`. -/
def THROTTLED_OR_BANNED_CODE : Int := -32504
/-- `STAKE_TOO_LOW_CODE`. -/
def STAKE_TOO_LOW_CODE : Int := -32505
/-- `UNSUPORTED_AGGREGATOR_CODE` (source spelling). -/
def UNSUPORTED_AGGREGATOR_CODE : Int := -32506
/-- `SIGNATURE_CHECK_FAILED_CODE`. -/
def SIGNATURE_CHECK_FAILED_CODE : Int := -32507

/-- The serialized `data` payload attached to a wire error: each case is the
serialization of the corresponding `*Data` struct (with `skip_serializing`
fields dropped). -/
inductive RpcErrorData where
  | paymasterValidationRejected (paymaster : Address)
  | outOfTimeRange (data : OutOfTimeRangeData)
  | throttledOrBanned (data : ThrottledOrBannedData)
  | stakeTooLow (data : StakeTooLowData)
  | unsupportedAggregator (data : UnsupportedAggregatorData)
  deriving DecidableEq

/-- The wire error produced by `create_rpc_err`: a numeric code and an optional
serialized payload (the message string is not modelled; no claim concerns it). -/
structure RpcErrorRepr where
  code : Int
  data : Option RpcErrorData
  deriving DecidableEq

/-- `impl From<EthRpcError> for RpcError`: the exhaustive mapping of each
variant to its numeric code, attaching the serialized payload exactly where the
source calls `rpc_err_with_data`. The source's match arms refer to the variants
and code constants by an earlier revision's names (`ValidationRejected` /
`VALIDATION_REJECTED_CODE` for the entrypoint-validation arm, and
`PaymasterRejected` / `PAYMASTER_REJECTED_CODE` for the paymaster arm); the
arms correspond one-to-one, in order, to the declared variants and the declared
code constants. -/
def EthRpcError.toRpcError : EthRpcError → RpcErrorRepr
  | .InvalidParams _ => { code := INVALID_PARAMS_CODE, data := none }
  | .EntrypointValidationRejected _ =>
    { code := ENTRYPOINT_VALIDATION_REJECTED_CODE, data := none }
  | .PaymasterValidatoinRejected d =>
    { code := PAYMASTER_VALIDATION_REJECTED_CODE
      data := some (.paymasterValidationRejected d.paymaster) }
  | .OpcodeViolation _ => { code := OPCODE_VIOLATION_CODE, data := none }
  | .OutOfTimeRange d => { code := OUT_OF_TIME_RANGE_CODE, data := some (.outOfTimeRange d) }
  | .ThrottledOrBanned d =>
    { code := THROTTLED_OR_BANNED_CODE, data := some (.throttledOrBanned d) }
  | .StakeTooLow d => { code := STAKE_TOO_LOW_CODE, data := some (.stakeTooLow d) }
  | .UnsupportedAggregator d =>
    { code := UNSUPORTED_AGGREGATOR_CODE, data := some (.unsupportedAggregator d) }
  | .SignatureCheckFailed => { code := SIGNATURE_CHECK_FAILED_CODE, data := none }
  | .Internal _ => { code := INTERNAL_ERROR_CODE, data := none }

/-! ## Reference (spec-side) definitions used to state refinement claims -/

/-- The spec's reference word encoding: an integer as a 32-byte big-endian word,
written arithmetically (digit `i` is `n / 256 ^ (31 - i) % 256`). -/
def specUint256 (n : Nat) : List Nat :=
  (List.range 32).map fun i => n / 256 ^ (31 - i) % 256

/-- The spec's reference address encoding: the address padded to 32 bytes with
leading zero bytes (the verifying contract's ABI encoding of an `address`). -/
def specPadAddress (a : List Nat) : List Nat :=
  List.replicate (32 - a.length) 0 ++ a

/-- The spec's two-level reference hash computation (§4.1 of the spec): hash the
three variable-length fields independently, ABI-encode the ordered ten-element
tuple and hash it to get the inner digest, then ABI-encode
`[inner_digest, verifier, network_id]` with the same scheme and hash that. -/
def referenceHash (op : UserOperation) (v : Address) (n : Nat) : List Nat :=
  let innerEncoding :=
    specPadAddress op.sender ++
    specUint256 op.nonce ++
    keccak256 op.init_code ++
    keccak256 op.call_data ++
    specUint256 op.call_gas_limit ++
    specUint256 op.verification_gas_limit ++
    specUint256 op.pre_verification_gas ++
    specUint256 op.max_fee_per_gas ++
    specUint256 op.max_priority_fee_per_gas ++
    keccak256 op.paymaster_and_data
  let inner_digest := keccak256 innerEncoding
  keccak256 (inner_digest ++ specPadAddress v ++ specUint256 n)

/-! ## Concrete test-vector values -/

/-- Verifier (entry point) address of the known test vectors:
`0x66a15edcc3b50a663e72f1457ffd49b9ae284ddc`. -/
def entryPointVec : Address :=
  [0x66, 0xa1, 0x5e, 0xdc, 0xc3, 0xb5, 0x0a, 0x66, 0x3e, 0x72, 0xf1, 0x45, 0x7f, 0xfd,
   0x49, 0xb9, 0xae, 0x28, 0x4d, 0xdc]

/-- The all-zero user operation of the first known vector. -/
def zeroVecOp : UserOperation :=
  { sender := List.replicate 20 0
    nonce := 0
    init_code := []
    call_data := []
    call_gas_limit := 0
    verification_gas_limit := 0
    pre_verification_gas := 0
    max_fee_per_gas := 0
    max_priority_fee_per_gas := 0
    paymaster_and_data := []
    signature := [] }

/-- The populated user operation of the second known vector. -/
def secondVecOp : UserOperation :=
  { sender := [0x13, 0x06, 0xb0, 0x1b, 0xc3, 0xe4, 0xad, 0x20, 0x26, 0x12, 0xd3, 0x84,
               0x33, 0x87, 0xe9, 0x47, 0x37, 0x67, 0x3f, 0x53]
    nonce := 8942
    init_code := [0x69, 0x42, 0x06, 0x94, 0x20, 0x69, 0x42, 0x06, 0x94, 0x20, 0x69, 0x42,
                  0x06, 0x94, 0x20, 0x69, 0x42, 0x06, 0x94, 0x20]
    call_data := [0x00, 0x00, 0x00, 0x00, 0x00, 0x00, 0x00, 0x00, 0x00, 0x00, 0x00, 0x00,
                  0x00, 0x00, 0x00, 0x00, 0x00, 0x00, 0x00, 0x00, 0x08, 0x00, 0x85]
    call_gas_limit := 10000
    verification_gas_limit := 100000
    pre_verification_gas := 100
    max_fee_per_gas := 99999
    max_priority_fee_per_gas := 9999999
    paymaster_and_data := [0x01, 0x23, 0x45, 0x67, 0x89, 0xab, 0xcd, 0xef, 0x01, 0x23,
                           0x45, 0x67, 0x89, 0xab, 0xcd, 0xef, 0x01, 0x23, 0x45, 0x67,
                           0x89, 0xab, 0xcd, 0xef, 0x01, 0x23, 0x45, 0x67, 0x89, 0xab,
                           0xcd, 0xef, 0x01, 0x23, 0x45, 0x67, 0x89, 0xab, 0xcd, 0xef]
    signature := [0xda, 0x09, 0x29, 0xf5, 0x27, 0xcd, 0xed, 0x8d, 0x0a, 0x1e, 0xaf, 0x2e,
                  0x88, 0x61, 0xd7, 0xf7, 0xe2, 0xd8, 0x16, 0x0b, 0x7b, 0x13, 0x94, 0x2f,
                  0x99, 0xdd, 0x36, 0x7d, 0xf4, 0x47, 0x3a] }

/-! ## Theorems -/

set_option maxRecDepth 1000000 in
set_option maxHeartbeats 4000000 in
/-- C1: hashing the all-zero operation against verifier
`0x66a15edcc3b50a663e72f1457ffd49b9ae284ddc` and network id 1337 yields exactly
`0xdca97c3b49558ab360659f6ead939773be8bf26631e61bb17045bb70dc983b2d`, and the
populated operation of the second known vector, against the same verifier and
network, yields exactly
`0x484add9e4d8c3172d11b5feb6a3cc712280e176d278027cfa02ee396eb28afa1`. -/
theorem hash_known_vectors :
    bytesToNat (UserOperation.hash zeroVecOp entryPointVec 1337) =
      0xdca97c3b49558ab360659f6ead939773be8bf26631e61bb17045bb70dc983b2d ∧
    bytesToNat (UserOperation.hash secondVecOp entryPointVec 1337) =
      0x484add9e4d8c3172d11b5feb6a3cc712280e176d278027cfa02ee396eb28afa1 := by
  constructor
  · decide
  · decide

/-- `specUint256` agrees with the implementation's ABI word encoding. -/
theorem specUint256_eq_abiUint (n : Nat) : specUint256 n = abiUint n := by
  unfold specUint256 abiUint beBytes
  refine List.map_congr_left fun i _ => ?_
  rw [Nat.shiftRight_eq_div_pow]
  have h := Nat.and_pow_two_sub_one_eq_mod (n / 2 ^ (8 * (32 - 1 - i))) 8
  norm_num at h ⊢
  rw [h, pow_mul]
  norm_num

/-- `specPadAddress` agrees with the implementation's ABI address encoding on
20-byte addresses. -/
theorem specPadAddress_eq_abiAddress (a : Address) (h : a.length = 20) :
    specPadAddress a = abiAddress a := by
  unfold specPadAddress abiAddress
  rw [h]

/-- C2: for every operation, verifier address (20 bytes) and network id, the
implementation's hash equals the spec's two-level reference computation. -/
theorem hash_eq_referenceHash (op : UserOperation) (v : Address) (n : Nat)
    (hs : op.sender.length = 20) (hv : v.length = 20) :
    UserOperation.hash op v n = referenceHash op v n := by
  unfold UserOperation.hash referenceHash UserOperation.pack_for_hash
  rw [specUint256_eq_abiUint, specPadAddress_eq_abiAddress v hv,
    specPadAddress_eq_abiAddress op.sender hs]
  simp only [specUint256_eq_abiUint]

/-- Witness for C2 at a concrete operation, verifier and network id. -/
theorem hash_eq_referenceHash_witness :
    UserOperation.hash zeroVecOp entryPointVec 1337 =
      referenceHash zeroVecOp entryPointVec 1337 :=
  hash_eq_referenceHash zeroVecOp entryPointVec 1337 (by decide) (by decide)

/-- C7: the hash does not depend on the signature field: hashing an operation
and hashing its signature-cleared form agree for every operation, verifier and
network id. -/
theorem hash_signature_independent (op : UserOperation) (v : Address) (n : Nat) :
    UserOperation.hash op v n = UserOperation.hash (UserOperation.clear_signature op) v n :=
  rfl

/-- The spec table's numeric code for each taxonomy variant (§4.6). -/
def specErrorCode : EthRpcError → Int
  | .InvalidParams _ => -32602
  | .EntrypointValidationRejected _ => -32500
  | .PaymasterValidatoinRejected _ => -32501
  | .OpcodeViolation _ => -32502
  | .OutOfTimeRange _ => -32503
  | .ThrottledOrBanned _ => -32504
  | .StakeTooLow _ => -32505
  | .UnsupportedAggregator _ => -32506
  | .SignatureCheckFailed => -32507
  | .Internal _ => -32603

/-- The spec table's serialized payload for each taxonomy variant: attached
exactly for the variants the table lists as carrying one. -/
def specErrorPayload : EthRpcError → Option RpcErrorData
  | .PaymasterValidatoinRejected d => some (.paymasterValidationRejected d.paymaster)
  | .OutOfTimeRange d => some (.outOfTimeRange d)
  | .ThrottledOrBanned d => some (.throttledOrBanned d)
  | .StakeTooLow d => some (.stakeTooLow d)
  | .UnsupportedAggregator d => some (.unsupportedAggregator d)
  | _ => none

/-- C3: converting each taxonomy variant to the wire error representation
yields exactly the fixed numeric code of the spec's table, with a serialized
data payload attached exactly for the variants the table lists as carrying one,
for every instance of every variant. -/
theorem toRpcError_matches_code_table (e : EthRpcError) :
    e.toRpcError = { code := specErrorCode e, data := specErrorPayload e } := by
  cases e <;> rfl

/-- C4: the Default reconciliation policy. The first block states that the
non-gas fields are copied unchanged; the remaining conjuncts state the
absent/present behaviour of each optional field: absent fee fields and
pre_verification_gas become 0, absent gas limits become the corresponding
maximum, present gas limits are capped by `min` with the maximum, and present
fee fields and pre_verification_gas pass through uncapped. -/
theorem into_user_operation_default_policy (o : UserOperationOptionalGas)
    (mcg mvg : Nat) :
    ((o.into_user_operation mcg mvg).sender = o.sender ∧
     (o.into_user_operation mcg mvg).nonce = o.nonce ∧
     (o.into_user_operation mcg mvg).init_code = o.init_code ∧
     (o.into_user_operation mcg mvg).call_data = o.call_data ∧
     (o.into_user_operation mcg mvg).paymaster_and_data = o.paymaster_and_data ∧
     (o.into_user_operation mcg mvg).signature = o.signature) ∧
    (o.pre_verification_gas = none →
      (o.into_user_operation mcg mvg).pre_verification_gas = 0) ∧
    (o.max_fee_per_gas = none → (o.into_user_operation mcg mvg).max_fee_per_gas = 0) ∧
    (o.max_priority_fee_per_gas = none →
      (o.into_user_operation mcg mvg).max_priority_fee_per_gas = 0) ∧
    (o.call_gas_limit = none → (o.into_user_operation mcg mvg).call_gas_limit = mcg) ∧
    (o.verification_gas_limit = none →
      (o.into_user_operation mcg mvg).verification_gas_limit = mvg) ∧
    (∀ v, o.call_gas_limit = some v →
      (o.into_user_operation mcg mvg).call_gas_limit = min v mcg) ∧
    (∀ v, o.verification_gas_limit = some v →
      (o.into_user_operation mcg mvg).verification_gas_limit = min v mvg) ∧
    (∀ v, o.pre_verification_gas = some v →
      (o.into_user_operation mcg mvg).pre_verification_gas = v) ∧
    (∀ v, o.max_fee_per_gas = some v → (o.into_user_operation mcg mvg).max_fee_per_gas = v) ∧
    (∀ v, o.max_priority_fee_per_gas = some v →
      (o.into_user_operation mcg mvg).max_priority_fee_per_gas = v) := by
  refine ⟨⟨rfl, rfl, rfl, rfl, rfl, rfl⟩, ?_, ?_, ?_, ?_, ?_, ?_, ?_, ?_, ?_, ?_⟩ <;>
    first
      | (intro h; simp [UserOperationOptionalGas.into_user_operation, h])
      | (intro v h; simp [UserOperationOptionalGas.into_user_operation, h])

/-- Concrete input for the C4 witness: all optional fields absent. -/
def c4AllNone : UserOperationOptionalGas :=
  { sender := [1], nonce := 2, init_code := [3], call_data := [4]
    call_gas_limit := none, verification_gas_limit := none
    pre_verification_gas := none, max_fee_per_gas := none
    max_priority_fee_per_gas := none, paymaster_and_data := [5], signature := [6] }

/-- Concrete input for the C4 witness: all optional fields present, the two gas
limits exceeding their caps. -/
def c4AllSome : UserOperationOptionalGas :=
  { sender := [1], nonce := 2, init_code := [3], call_data := [4]
    call_gas_limit := some 9, verification_gas_limit := some 8
    pre_verification_gas := some 3, max_fee_per_gas := some 4
    max_priority_fee_per_gas := some 6, paymaster_and_data := [5], signature := [6] }

/-- Witness for C4, discharging both the absent-field and the present-field
hypotheses at concrete inputs. -/
theorem into_user_operation_default_policy_witness :
    (c4AllNone.into_user_operation 5 7).call_gas_limit = 5 ∧
    (c4AllNone.into_user_operation 5 7).verification_gas_limit = 7 ∧
    (c4AllNone.into_user_operation 5 7).pre_verification_gas = 0 ∧
    (c4AllNone.into_user_operation 5 7).max_fee_per_gas = 0 ∧
    (c4AllNone.into_user_operation 5 7).max_priority_fee_per_gas = 0 ∧
    (c4AllSome.into_user_operation 5 7).call_gas_limit = min 9 5 ∧
    (c4AllSome.into_user_operation 5 7).verification_gas_limit = min 8 7 ∧
    (c4AllSome.into_user_operation 5 7).pre_verification_gas = 3 ∧
    (c4AllSome.into_user_operation 5 7).max_fee_per_gas = 4 ∧
    (c4AllSome.into_user_operation 5 7).max_priority_fee_per_gas = 6 ∧
    (c4AllSome.into_user_operation 5 7).sender = [1] := by
  obtain ⟨hA, hB, hC, hD, hE, hF, -, -, -, -, -⟩ :=
    into_user_operation_default_policy c4AllNone 5 7
  obtain ⟨hA2, -, -, -, -, -, hG, hH, hI, hJ, hK⟩ :=
    into_user_operation_default_policy c4AllSome 5 7
  exact ⟨hE rfl, hF rfl, hB rfl, hC rfl, hD rfl, hG 9 rfl, hH 8 rfl, hI 3 rfl,
    hJ 4 rfl, hK 6 rfl, hA2.1⟩

/-- C5: the MaxFill policy forces every optional numeric gas/fee field to the
maximum representable 256-bit value (not the configured caps), replaces
signature and paymaster_and_data by all-0xFF buffers of the input's lengths,
and takes the remaining fields from the Default (`into_user_operation`) fill. -/
theorem max_fill_spec (o : UserOperationOptionalGas) (mcg mvg : Nat) :
    (o.max_fill mcg mvg).call_gas_limit = U256MAX ∧
    (o.max_fill mcg mvg).verification_gas_limit = U256MAX ∧
    (o.max_fill mcg mvg).pre_verification_gas = U256MAX ∧
    (o.max_fill mcg mvg).max_fee_per_gas = U256MAX ∧
    (o.max_fill mcg mvg).max_priority_fee_per_gas = U256MAX ∧
    (o.max_fill mcg mvg).signature = List.replicate o.signature.length 0xff ∧
    (o.max_fill mcg mvg).signature.length = o.signature.length ∧
    (o.max_fill mcg mvg).paymaster_and_data =
      List.replicate o.paymaster_and_data.length 0xff ∧
    (o.max_fill mcg mvg).paymaster_and_data.length = o.paymaster_and_data.length ∧
    (o.max_fill mcg mvg).sender = (o.into_user_operation mcg mvg).sender ∧
    (o.max_fill mcg mvg).nonce = (o.into_user_operation mcg mvg).nonce ∧
    (o.max_fill mcg mvg).init_code = (o.into_user_operation mcg mvg).init_code ∧
    (o.max_fill mcg mvg).call_data = (o.into_user_operation mcg mvg).call_data := by
  refine ⟨rfl, rfl, rfl, rfl, rfl, rfl, ?_, rfl, ?_, rfl, rfl, rfl, rfl⟩ <;>
    simp [UserOperationOptionalGas.max_fill]

/-- The verification-gas term of `max_gas_cost`: the verification gas limit
multiplied by 3 when a paymaster is present, else by 1. -/
def UserOperation.verification_gas_contribution (op : UserOperation) : Nat :=
  op.verification_gas_limit * (if (UserOperation.paymaster op).isSome then 3 else 1)

/-- C6: `max_gas_cost` equals
`max_fee_per_gas * (pre_verification_gas + call_gas_limit + verification_gas_limit * k)`
with `k = 3` when a paymaster is present and `k = 1` otherwise; consequently the
verification-gas contribution of an operation with a paymaster is exactly 3
times that of an otherwise-identical operation without one. -/
theorem max_gas_cost_paymaster_formula (op : UserOperation) :
    (UserOperation.max_gas_cost op =
      op.max_fee_per_gas * (op.pre_verification_gas + op.call_gas_limit +
        op.verification_gas_limit *
          (if (UserOperation.paymaster op).isSome then 3 else 1))) ∧
    (UserOperation.max_gas_cost op =
      op.max_fee_per_gas * (op.pre_verification_gas + op.call_gas_limit +
        UserOperation.verification_gas_contribution op)) ∧
    ∀ op2 : UserOperation,
      (UserOperation.paymaster op).isSome → UserOperation.paymaster op2 = none →
      op.verification_gas_limit = op2.verification_gas_limit →
      UserOperation.verification_gas_contribution op =
        3 * UserOperation.verification_gas_contribution op2 := by
  refine ⟨rfl, rfl, fun op2 h1 h2 h3 => ?_⟩
  unfold UserOperation.verification_gas_contribution
  simp [h1, h2, h3, Nat.mul_comm]

/-- Concrete operation with a paymaster for the C6 witness. -/
def c6OpPm : UserOperation :=
  { sender := [], nonce := 0, init_code := [], call_data := []
    call_gas_limit := 0, verification_gas_limit := 11, pre_verification_gas := 0
    max_fee_per_gas := 0, max_priority_fee_per_gas := 0
    paymaster_and_data := List.replicate 20 1, signature := [] }

/-- Concrete operation without a paymaster for the C6 witness. -/
def c6OpNoPm : UserOperation :=
  { sender := [], nonce := 0, init_code := [], call_data := []
    call_gas_limit := 0, verification_gas_limit := 11, pre_verification_gas := 0
    max_fee_per_gas := 0, max_priority_fee_per_gas := 0
    paymaster_and_data := [], signature := [] }

/-- Witness for C6 at two concrete operations differing only in paymaster
presence. -/
theorem max_gas_cost_paymaster_formula_witness :
    UserOperation.verification_gas_contribution c6OpPm =
      3 * UserOperation.verification_gas_contribution c6OpNoPm :=
  (max_gas_cost_paymaster_formula c6OpPm).2.2 c6OpNoPm (by decide) (by decide) rfl

/-- C8: `factory` is `none` iff `init_code` is shorter than 20 bytes and
otherwise its first 20 bytes; `paymaster` follows the same rule on
`paymaster_and_data`; and `entities` always contains the account entity,
contains factory/paymaster entities exactly when the extractors succeed, never
contains an aggregator entity, and lists its elements in the fixed iteration
order of the role enumeration (account, then paymaster, then factory). -/
theorem entity_extraction_spec (op : UserOperation) :
    (UserOperation.factory op =
      if op.init_code.length < 20 then none else some (op.init_code.take 20)) ∧
    (UserOperation.paymaster op =
      if op.paymaster_and_data.length < 20 then none
      else some (op.paymaster_and_data.take 20)) ∧
    (UserOperation.entities op =
      [⟨.account, op.sender⟩] ++
      ((UserOperation.paymaster op).map fun a => Entity.mk .paymaster a).toList ++
      ((UserOperation.factory op).map fun a => Entity.mk .factory a).toList) ∧
    ((⟨.account, op.sender⟩ : Entity) ∈ UserOperation.entities op) ∧
    (∀ a : Address, (⟨.aggregator, a⟩ : Entity) ∉ UserOperation.entities op) ∧
    (∀ a : Address, ((⟨.paymaster, a⟩ : Entity) ∈ UserOperation.entities op ↔
      UserOperation.paymaster op = some a)) ∧
    (∀ a : Address, ((⟨.factory, a⟩ : Entity) ∈ UserOperation.entities op ↔
      UserOperation.factory op = some a)) := by
  refine ⟨rfl, rfl, ?_, ?_, ?_, ?_, ?_⟩ <;>
    cases hp : UserOperation.paymaster op <;> cases hf : UserOperation.factory op <;>
      simp [UserOperation.entities, EntityType.iterList, UserOperation.entity_address,
        hp, hf, List.filterMap_cons, Entity.mk.injEq, eq_comm]

/-- Concrete operation for the C8 witness: both a factory and a paymaster
present. -/
def c8Op : UserOperation :=
  { sender := [7], nonce := 0, init_code := List.replicate 20 2, call_data := []
    call_gas_limit := 0, verification_gas_limit := 0, pre_verification_gas := 0
    max_fee_per_gas := 0, max_priority_fee_per_gas := 0
    paymaster_and_data := List.replicate 20 3, signature := [] }

/-- Witness for C8 at a concrete operation: the produced entity list, in order. -/
theorem entity_extraction_spec_witness :
    UserOperation.entities c8Op =
      [⟨.account, [7]⟩, ⟨.paymaster, List.replicate 20 3⟩,
       ⟨.factory, List.replicate 20 2⟩] := by
  rw [(entity_extraction_spec c8Op).2.2.1]
  decide

/-- C9: every value produced by the role-specific constructor functions of
`ThrottledOrBannedData` and `StakeTooLowData` has exactly the selected one of
the three optional entity fields populated and the other two set to `none`, for
every address, minimum stake and minimum unstake delay. -/
theorem rejection_data_exactly_one_entity (a : Address) (ms mud : Nat) :
    ((ThrottledOrBannedData.forPaymaster a).paymaster = some a ∧
     (ThrottledOrBannedData.forPaymaster a).aggregator = none ∧
     (ThrottledOrBannedData.forPaymaster a).factory = none) ∧
    ((ThrottledOrBannedData.forAggregator a).paymaster = none ∧
     (ThrottledOrBannedData.forAggregator a).aggregator = some a ∧
     (ThrottledOrBannedData.forAggregator a).factory = none) ∧
    ((ThrottledOrBannedData.forFactory a).paymaster = none ∧
     (ThrottledOrBannedData.forFactory a).aggregator = none ∧
     (ThrottledOrBannedData.forFactory a).factory = some a) ∧
    ((StakeTooLowData.forPaymaster a ms mud).paymaster = some a ∧
     (StakeTooLowData.forPaymaster a ms mud).aggregator = none ∧
     (StakeTooLowData.forPaymaster a ms mud).factory = none) ∧
    ((StakeTooLowData.forAggregator a ms mud).paymaster = none ∧
     (StakeTooLowData.forAggregator a ms mud).aggregator = some a ∧
     (StakeTooLowData.forAggregator a ms mud).factory = none) ∧
    ((StakeTooLowData.forFactory a ms mud).paymaster = none ∧
     (StakeTooLowData.forFactory a ms mud).aggregator = none ∧
     (StakeTooLowData.forFactory a ms mud).factory = some a) :=
  ⟨⟨rfl, rfl, rfl⟩, ⟨rfl, rfl, rfl⟩, ⟨rfl, rfl, rfl⟩,
   ⟨rfl, rfl, rfl⟩, ⟨rfl, rfl, rfl⟩, ⟨rfl, rfl, rfl⟩⟩

/-- C10: in `max_gas_cost` and `total_verification_gas_limit`, paymaster
presence (selecting the ×3 and ×2 multipliers) is decided solely by
`paymaster_and_data` having byte length at least 20, independent of content; in
particular a `paymaster_and_data` of 20 zero bytes (the zero address) still
counts as a present paymaster and triggers the multiplied accounting. -/
theorem paymaster_presence_by_length (op : UserOperation) :
    (UserOperation.max_gas_cost op =
      op.max_fee_per_gas * (op.pre_verification_gas + op.call_gas_limit +
        op.verification_gas_limit *
          (if 20 ≤ op.paymaster_and_data.length then 3 else 1))) ∧
    (UserOperation.total_verification_gas_limit op =
      op.verification_gas_limit *
        (if 20 ≤ op.paymaster_and_data.length then 2 else 1)) ∧
    ((UserOperation.paymaster op).isSome ↔ 20 ≤ op.paymaster_and_data.length) ∧
    (op.paymaster_and_data = List.replicate 20 0 →
      UserOperation.paymaster op = some (List.replicate 20 0) ∧
      UserOperation.max_gas_cost op =
        op.max_fee_per_gas * (op.pre_verification_gas + op.call_gas_limit +
          op.verification_gas_limit * 3) ∧
      UserOperation.total_verification_gas_limit op = op.verification_gas_limit * 2) := by
  have hiff : (UserOperation.paymaster op).isSome ↔ 20 ≤ op.paymaster_and_data.length := by
    unfold UserOperation.paymaster UserOperation.get_address_from_field
    rcases Nat.lt_or_ge op.paymaster_and_data.length 20 with h | h
    · simp [h, Nat.not_le.mpr h]
    · simp [Nat.not_lt.mpr h, h]
  refine ⟨?_, ?_, hiff, fun hz => ?_⟩
  · rcases Nat.lt_or_ge op.paymaster_and_data.length 20 with h | h
    · simp [UserOperation.max_gas_cost, UserOperation.paymaster,
        UserOperation.get_address_from_field, h, Nat.not_le.mpr h]
    · simp [UserOperation.max_gas_cost, UserOperation.paymaster,
        UserOperation.get_address_from_field, Nat.not_lt.mpr h, h]
  · rcases Nat.lt_or_ge op.paymaster_and_data.length 20 with h | h
    · simp [UserOperation.total_verification_gas_limit, UserOperation.paymaster,
        UserOperation.get_address_from_field, h, Nat.not_le.mpr h]
    · simp [UserOperation.total_verification_gas_limit, UserOperation.paymaster,
        UserOperation.get_address_from_field, Nat.not_lt.mpr h, h]
  · have hp : UserOperation.paymaster op = some (List.replicate 20 0) := by
      unfold UserOperation.paymaster UserOperation.get_address_from_field
      rw [hz]
      simp
    refine ⟨hp, ?_, ?_⟩
    · unfold UserOperation.max_gas_cost
      simp [hp]
    · unfold UserOperation.total_verification_gas_limit
      simp [hp]

/-- Concrete operation with an all-zero 20-byte paymaster_and_data for the C10
witness. -/
def c10Op : UserOperation :=
  { sender := [], nonce := 0, init_code := [], call_data := []
    call_gas_limit := 3, verification_gas_limit := 7, pre_verification_gas := 1
    max_fee_per_gas := 2, max_priority_fee_per_gas := 0
    paymaster_and_data := List.replicate 20 0, signature := [] }

/-- Witness for C10 at a concrete operation whose paymaster_and_data is the
zero address. -/
theorem paymaster_presence_by_length_witness :
    UserOperation.paymaster c10Op = some (List.replicate 20 0) ∧
    UserOperation.max_gas_cost c10Op = 2 * (1 + 3 + 7 * 3) ∧
    UserOperation.total_verification_gas_limit c10Op = 7 * 2 := by
  have h := (paymaster_presence_by_length c10Op).2.2.2 rfl
  exact ⟨h.1, h.2.1, h.2.2⟩

end Rundler
